import Mathlib

/-!
Verification of the media-request route handlers of
src/server/routes/request.ts (overseerr).

The handlers are embedded as pure Lean functions over an explicit
database state.  External collaborators (metadata client, permission
evaluator, persistence engine) are modelled as parameters or as plain
list-backed stores, following the collaborator contracts of the spec.
A JavaScript `undefined` request status (reachable through the
status-change route) is modelled as `Option.none`.
-/

/-- Capabilities checked by the handlers, from src/server/lib/permissions.ts
(the evaluator itself is an external collaborator: hasPermission answers a
boolean per user and capability). -/
inductive Permission where
  | request
  | autoApprove
  | manageRequests
deriving DecidableEq, Repr

/-- Modelled from the spec: the request-status enum of
src/server/constants/media.ts is not among the provided sources.  The spec
states status is one of pending, approved, declined, and that the values
form an ordered set where pending sorts lowest, used to gate self-deletion. -/
inductive MediaRequestStatus where
  | pending
  | approved
  | declined
deriving DecidableEq, Repr

/-- Modelled from the spec: numeric value of each status; pending sorts
lowest, matching the delete gate `request.status > 0` in the source. -/
def MediaRequestStatus.val : MediaRequestStatus → Nat
  | .pending => 0
  | .approved => 1
  | .declined => 2

/-- Modelled from the spec: MediaStatus of src/server/constants/media.ts is
not among the provided sources; only its pending variant is used here
(Media rows are created with status = pending). -/
inductive MediaStatus where
  | pending
deriving DecidableEq, Repr

/-- MediaType used for the Request row's `type` field. -/
inductive MediaType where
  | movie
  | tv
deriving DecidableEq, Repr

/-- The authenticated user: an id plus the set of capabilities the
permission evaluator grants them. -/
structure User where
  id : Nat
  permissions : List Permission
deriving DecidableEq, Repr

/-- Collaborator contract of the permission evaluator:
hasCapability(user, capability) -> boolean. -/
def User.hasPermission (u : User) (p : Permission) : Bool :=
  u.permissions.contains p

/-- Result of the metadata client: a title record with its id and the
external_ids.tvdb_id secondary identifier (possibly null). -/
structure TmdbResult where
  id : Nat
  tvdbId : Option Nat
deriving DecidableEq, Repr

/-- A persisted Media row. `mediaType` stores the raw request-body string,
exactly as `new Media({ ..., mediaType: req.body.mediaType })` does. -/
structure MediaRow where
  id : Nat
  tmdbId : Nat
  tvdbId : Option Nat
  status : MediaStatus
  mediaType : String
deriving DecidableEq, Repr

/-- A persisted SeasonRequest row, owned by one Request. -/
structure SeasonRow where
  seasonNumber : Nat
  status : MediaRequestStatus
deriving DecidableEq, Repr

/-- A persisted Request row.  `status` is an Option because the
status-change handler can assign JavaScript `undefined` (modelled `none`)
when the path segment is unrecognized; every creation path assigns `some`. -/
structure RequestRow where
  id : Nat
  type : MediaType
  mediaId : Nat
  requestedById : Nat
  status : Option MediaRequestStatus
  seasons : List SeasonRow
deriving DecidableEq, Repr

/-- The persistent state: the Media and Request stores, plus the id
counters the persistence layer uses when saving new rows. -/
structure DB where
  media : List MediaRow
  requests : List RequestRow
  nextMediaId : Nat
  nextRequestId : Nat
deriving DecidableEq, Repr

/-- Outcome of a handler: a 2xx response carrying a Request row, or the
object forwarded to the centralized error responder via `next(...)`. -/
inductive HandlerResult where
  | ok (httpStatus : Nat) (request : RequestRow)
  | err (httpStatus : Nat) (message : String)
deriving DecidableEq, Repr

/-- Body of POST / : mediaType, mediaId, and the season list (tv only). -/
structure CreateInput where
  mediaType : String
  mediaId : Nat
  seasons : List Nat
deriving DecidableEq, Repr

/-- The JavaScript comparison `request.status > 0` where `status` may be
`undefined` (`undefined > 0` is false). -/
def statusGtZero : Option MediaRequestStatus → Bool
  | none => false
  | some s => decide (0 < s.val)

/-- The lookup of the Media row by tmdbId, findOne with a where clause. -/
def lookupMedia (db : DB) (mediaId : Nat) : Option MediaRow :=
  db.media.find? (fun m => m.tmdbId == mediaId)

/-- The `requests` relation loaded with a Media row. -/
def mediaRequestsOf (db : DB) (m : MediaRow) : List RequestRow :=
  db.requests.filter (fun r => r.mediaId == m.id)

/-- The `media.requests.reduce(...)` accumulation of every season number
already requested against the Media. -/
def existingSeasonNumbers (reqs : List RequestRow) : List Nat :=
  reqs.foldl
    (fun seasons request =>
      seasons ++ request.seasons.map (fun season => season.seasonNumber)) []

/-- Creation-time status: approved when the caller holds the auto-approve
capability, pending otherwise. -/
def requestStatusFor (user : User) : MediaRequestStatus :=
  if user.hasPermission .autoApprove then .approved else .pending

/-- The `requestedSeasons.filter((rs) => !existingSeasons.includes(rs))`
season difference of the tv branch. -/
def finalSeasonsFor (b : CreateInput) (existingSeasons : List Nat) : List Nat :=
  b.seasons.filter (fun rs => !(existingSeasons.contains rs))

/-- The Request row built by the movie branch of POST /. -/
def newMovieRequest (user : User) (db1 : DB) (media : MediaRow) : RequestRow :=
  { id := db1.nextRequestId
    type := .movie
    mediaId := media.id
    requestedById := user.id
    status := some (requestStatusFor user)
    seasons := [] }

/-- The Request row built by the tv branch of POST /, carrying one
SeasonRequest per remaining season number. -/
def newTvRequest (user : User) (b : CreateInput) (db1 : DB) (media : MediaRow)
    (existingSeasons : List Nat) : RequestRow :=
  { id := db1.nextRequestId
    type := .tv
    mediaId := media.id
    requestedById := user.id
    status := some (requestStatusFor user)
    seasons := (finalSeasonsFor b existingSeasons).map
      (fun sn => { seasonNumber := sn, status := requestStatusFor user }) }

/-- The part of POST / after the Media row has been resolved (and, when it
was absent, saved): the movie branch, the tv branch with its season
filtering, and the trailing invalid-media-type error. -/
def createWithMedia (user : User) (b : CreateInput) (db1 : DB)
    (media : MediaRow) (existingSeasons : List Nat) : DB × HandlerResult :=
  if b.mediaType == "movie" then
    ({ db1 with
        requests := db1.requests ++ [newMovieRequest user db1 media]
        nextRequestId := db1.nextRequestId + 1 },
      .ok 201 (newMovieRequest user db1 media))
  else if b.mediaType == "tv" then
    if (finalSeasonsFor b existingSeasons).length == 0 then
      (db1, .err 500 "No seasons available to request")
    else
      ({ db1 with
          requests := db1.requests ++ [newTvRequest user b db1 media existingSeasons]
          nextRequestId := db1.nextRequestId + 1 },
        .ok 201 (newTvRequest user b db1 media existingSeasons))
  else
    (db1, .err 500 "Invalid media type")

/-- POST / : `getMovie` and `getTvShow` are the metadata client's lookups
(`none` models a thrown lookup error, caught by the handler's catch block).
The tmdb call happens first; then the Media row is looked up by tmdbId and
created (status pending, raw body mediaType) when absent; then the
type-specific branch runs. -/
def createRequest (getMovie getTvShow : Nat → Option TmdbResult)
    (user : User) (b : CreateInput) (db : DB) : DB × HandlerResult :=
  match (if b.mediaType == "movie" then getMovie b.mediaId else getTvShow b.mediaId) with
  | none => (db, .err 500 "Upstream metadata lookup failed")
  | some tmdbMedia =>
    match lookupMedia db b.mediaId with
    | some media =>
      createWithMedia user b db media
        (existingSeasonNumbers (mediaRequestsOf db media))
    | none =>
      let media : MediaRow :=
        { id := db.nextMediaId
          tmdbId := tmdbMedia.id
          tvdbId := tmdbMedia.tvdbId
          status := .pending
          mediaType := b.mediaType }
      let db1 : DB :=
        { db with
            media := db.media ++ [media]
            nextMediaId := db.nextMediaId + 1 }
      createWithMedia user b db1 media []

/-- DELETE /:requestId : loads the Request, applies the
manage-requests / owner-and-pending gate, deletes the row on success. -/
def deleteRequest (user : User) (requestId : Nat) (db : DB) :
    DB × HandlerResult :=
  match db.requests.find? (fun r => r.id == requestId) with
  | none => (db, .err 404 "Request not found")
  | some request =>
    if !(user.hasPermission .manageRequests) &&
        (!(request.requestedById == user.id) || statusGtZero request.status) then
      (db, .err 401 "You do not have permission to remove this request")
    else
      ({ db with requests := db.requests.filter (fun r => !(r.id == request.id)) },
        .ok 200 request)

/-- The switch over the `:status` path segment; no default case, so an
unrecognized segment leaves `newStatus` undefined (`none`). -/
def statusFromParam (s : String) : Option MediaRequestStatus :=
  if s == "pending" then some .pending
  else if s == "approve" then some .approved
  else if s == "decline" then some .declined
  else none

/-- GET /:requestId/:status : loads the Request, maps the path segment to a
status, overwrites the Request's status field and saves. -/
def updateRequestStatus (_user : User) (requestId : Nat) (statusParam : String)
    (db : DB) : DB × HandlerResult :=
  match db.requests.find? (fun r => r.id == requestId) with
  | none => (db, .err 404 "Request not found")
  | some request =>
    let updated : RequestRow := { request with status := statusFromParam statusParam }
    ({ db with
        requests := db.requests.map
          (fun r => if r.id == requestId then updated else r) },
      .ok 200 updated)

/-- Descending order on Request ids, as in `order: id DESC`. -/
def reqGE (a b : RequestRow) : Prop := b.id ≤ a.id

instance : DecidableRel reqGE := fun a b => Nat.decLe b.id a.id

instance : IsTotal RequestRow reqGE := ⟨fun a b => Nat.le_total b.id a.id⟩

instance : IsTrans RequestRow reqGE := ⟨fun _ _ _ hab hbc => Nat.le_trans hbc hab⟩

/-- The store's `order: id DESC`. -/
def sortDescById (l : List RequestRow) : List RequestRow :=
  l.insertionSort reqGE

/-- GET / : managers see the 20 most recent requests system-wide; everyone
else sees only their own, same ordering and limit. -/
def listRequests (user : User) (db : DB) : List RequestRow :=
  if user.hasPermission .manageRequests then
    (sortDescById db.requests).take 20
  else
    (sortDescById
      (db.requests.filter (fun r => r.requestedById == user.id))).take 20

/-- All season numbers stored for the Media row with id `mid`, across the
whole Request store. -/
def seasonNumbersFor (reqs : List RequestRow) (mid : Nat) : List Nat :=
  ((reqs.filter (fun r => r.mediaId == mid)).map
    (fun r => r.seasons.map (fun s => s.seasonNumber))).flatten

/-- The claimed invariant: for every Media, no season number is stored
twice across all Requests. -/
def SeasonInvariant (db : DB) : Prop :=
  ∀ mid : Nat, (seasonNumbersFor db.requests mid).Nodup

/-! ## Concrete fixtures -/

/-- A metadata client knowing title 5 (as both movie and tv lookup). -/
def demoLookup : Nat → Option TmdbResult :=
  fun n => if n == 5 then some { id := 5, tvdbId := none } else none

/-- A metadata client knowing movie 550. -/
def demoMovieLookup : Nat → Option TmdbResult :=
  fun n => if n == 550 then some { id := 550, tvdbId := none } else none

/-- An authenticated user without auto-approve or manage-requests. -/
def demoUser : User := { id := 7, permissions := [.request] }

/-- A user holding the manage-requests capability. -/
def demoManager : User := { id := 9, permissions := [.request, .manageRequests] }

/-- The empty store. -/
def demoDB0 : DB := { media := [], requests := [], nextMediaId := 1, nextRequestId := 1 }

/-- The store after demoUser requests movie 5 on the empty store. -/
def demoMovieDB : DB :=
  (createRequest demoLookup demoLookup demoUser
    { mediaType := "movie", mediaId := 5, seasons := [] } demoDB0).1

/-! ## Helper lemmas on the create handler -/

/-- When the type-specific part of Create reports an error, it has not
touched the state it was handed. -/
theorem createWithMedia_err_state (user : User) (b : CreateInput) (db1 : DB)
    (media : MediaRow) (es : List Nat) (s : Nat) (msg : String)
    (h : (createWithMedia user b db1 media es).2 = .err s msg) :
    (createWithMedia user b db1 media es).1 = db1 := by
  unfold createWithMedia at h ⊢
  split at h
  · simp at h
  · split at h
    · split at h
      · simp_all
      · simp at h
    · simp_all

/-- The type-specific part of Create never removes or edits Request rows:
it either appends the one created row or leaves the store as given. -/
theorem createWithMedia_requests (user : User) (b : CreateInput) (db1 : DB)
    (media : MediaRow) (es : List Nat) :
    (createWithMedia user b db1 media es).1.requests = db1.requests ∨
    ∃ request : RequestRow,
      (createWithMedia user b db1 media es).1.requests = db1.requests ++ [request] := by
  unfold createWithMedia
  split
  · exact Or.inr ⟨_, rfl⟩
  · split
    · split
      · exact Or.inl rfl
      · exact Or.inr ⟨_, rfl⟩
    · exact Or.inl rfl

/-- The type-specific part of Create never touches the Media store. -/
theorem createWithMedia_media (user : User) (b : CreateInput) (db1 : DB)
    (media : MediaRow) (es : List Nat) :
    (createWithMedia user b db1 media es).1.media = db1.media := by
  unfold createWithMedia
  split
  · rfl
  · split
    · split
      · rfl
      · rfl
    · rfl

/-! ## C1 -/

/-- C1: counterexample.  A Create with the unrecognized mediaType "music"
on a fresh store fails with the invalid-media-type error, yet it has
persisted a new Media row: the operation is not all-or-nothing. -/
theorem c1_counterexample :
    (createRequest demoLookup demoLookup demoUser
        { mediaType := "music", mediaId := 5, seasons := [] } demoDB0).2 =
      .err 500 "Invalid media type" ∧
    (createRequest demoLookup demoLookup demoUser
        { mediaType := "music", mediaId := 5, seasons := [] } demoDB0).1.media ≠
      demoDB0.media := by
  exact ⟨rfl, by decide⟩

/-- C1 (amended): when a Create call fails, no Request row has been created
or changed; the Media store is either unchanged or has gained exactly one
row (the lookup-or-create step runs before the validations, so a failing
call can still have persisted a new Media row). -/
theorem c1_create_failure_state (gm gt : Nat → Option TmdbResult) (user : User)
    (b : CreateInput) (db : DB) (s : Nat) (msg : String)
    (hfail : (createRequest gm gt user b db).2 = .err s msg) :
    (createRequest gm gt user b db).1.requests = db.requests ∧
    ((createRequest gm gt user b db).1.media = db.media ∨
      ∃ mrow : MediaRow,
        (createRequest gm gt user b db).1.media = db.media ++ [mrow]) := by
  unfold createRequest at *
  cases h1 : (if b.mediaType == "movie" then gm b.mediaId else gt b.mediaId) with
  | none => simp [h1]
  | some tmdbMedia =>
    simp only [h1] at hfail ⊢
    cases h2 : lookupMedia db b.mediaId with
    | some media =>
      simp only [h2] at hfail ⊢
      have hstate := createWithMedia_err_state user b db media
        (existingSeasonNumbers (mediaRequestsOf db media)) s msg hfail
      rw [hstate]
      exact ⟨rfl, Or.inl rfl⟩
    | none =>
      simp only [h2] at hfail ⊢
      have hstate := createWithMedia_err_state user b _ _ [] s msg hfail
      rw [hstate]
      exact ⟨rfl, Or.inr ⟨_, rfl⟩⟩

/-- C1 witness: the amended statement at the concrete failing "music"
call. -/
theorem c1_create_failure_state_witness :
    (createRequest demoLookup demoLookup demoUser
        { mediaType := "music", mediaId := 5, seasons := [] } demoDB0).1.requests =
      demoDB0.requests ∧
    ((createRequest demoLookup demoLookup demoUser
        { mediaType := "music", mediaId := 5, seasons := [] } demoDB0).1.media =
      demoDB0.media ∨
      ∃ mrow : MediaRow,
        (createRequest demoLookup demoLookup demoUser
            { mediaType := "music", mediaId := 5, seasons := [] } demoDB0).1.media =
          demoDB0.media ++ [mrow]) :=
  c1_create_failure_state demoLookup demoLookup demoUser
    { mediaType := "music", mediaId := 5, seasons := [] } demoDB0 500
    "Invalid media type" (by decide)

/-- Reduction of Create when the Media row already exists. -/
theorem createRequest_found (gm gt : Nat → Option TmdbResult) (user : User)
    (b : CreateInput) (db : DB) (media : MediaRow) (t : TmdbResult)
    (ht : (if b.mediaType == "movie" then gm b.mediaId else gt b.mediaId) = some t)
    (hm : lookupMedia db b.mediaId = some media) :
    createRequest gm gt user b db =
      createWithMedia user b db media
        (existingSeasonNumbers (mediaRequestsOf db media)) := by
  unfold createRequest
  rw [ht, hm]

/-- Reduction of Create when the Media row is absent: a fresh row is saved
first and the branch runs with no loaded requests relation. -/
theorem createRequest_notfound (gm gt : Nat → Option TmdbResult) (user : User)
    (b : CreateInput) (db : DB) (t : TmdbResult)
    (ht : (if b.mediaType == "movie" then gm b.mediaId else gt b.mediaId) = some t)
    (hm : lookupMedia db b.mediaId = none) :
    createRequest gm gt user b db =
      createWithMedia user b
        { db with
            media := db.media ++
              [{ id := db.nextMediaId, tmdbId := t.id, tvdbId := t.tvdbId,
                 status := .pending, mediaType := b.mediaType }]
            nextMediaId := db.nextMediaId + 1 }
        { id := db.nextMediaId, tmdbId := t.id, tvdbId := t.tvdbId,
          status := .pending, mediaType := b.mediaType }
        [] := by
  unfold createRequest
  rw [ht, hm]

/-- Reduction of the type-specific branch for a movie body. -/
theorem createWithMedia_movie (user : User) (b : CreateInput) (db1 : DB)
    (media : MediaRow) (es : List Nat) (hmovie : b.mediaType = "movie") :
    createWithMedia user b db1 media es =
      ({ db1 with
          requests := db1.requests ++ [newMovieRequest user db1 media]
          nextRequestId := db1.nextRequestId + 1 },
        .ok 201 (newMovieRequest user db1 media)) := by
  simp [createWithMedia, hmovie]

/-- Reduction of the tv branch when net-new seasons remain. -/
theorem createWithMedia_tv_ok (user : User) (b : CreateInput) (db1 : DB)
    (media : MediaRow) (es : List Nat) (htv : b.mediaType = "tv")
    (hne : (finalSeasonsFor b es).length ≠ 0) :
    createWithMedia user b db1 media es =
      ({ db1 with
          requests := db1.requests ++ [newTvRequest user b db1 media es]
          nextRequestId := db1.nextRequestId + 1 },
        .ok 201 (newTvRequest user b db1 media es)) := by
  simp [createWithMedia, htv, hne]

/-- Reduction of the tv branch when every requested season is already
covered: the validation error, with the state as it stood (including a
Media row possibly saved just before). -/
theorem createWithMedia_tv_err (user : User) (b : CreateInput) (db1 : DB)
    (media : MediaRow) (es : List Nat) (htv : b.mediaType = "tv")
    (hz : (finalSeasonsFor b es).length = 0) :
    createWithMedia user b db1 media es =
      (db1, .err 500 "No seasons available to request") := by
  simp [createWithMedia, htv, hz]

/-- Every successful Create response returns exactly the row it appended,
and that row references the resolved Media row. -/
theorem createWithMedia_ok_shape (user : User) (b : CreateInput) (db1 : DB)
    (media : MediaRow) (es : List Nat) (hs : Nat) (req : RequestRow)
    (h : (createWithMedia user b db1 media es).2 = .ok hs req) :
    createWithMedia user b db1 media es =
      ({ db1 with
          requests := db1.requests ++ [req]
          nextRequestId := db1.nextRequestId + 1 },
        .ok 201 req) ∧
    req.mediaId = media.id := by
  unfold createWithMedia at h ⊢
  split at h
  next hb =>
    dsimp only at h
    injection h with h1 h2
    subst h1
    subst h2
    exact ⟨by simp [hb], rfl⟩
  next hb =>
    split at h
    next hc =>
      split at h
      next hz => simp at h
      next hz =>
        dsimp only at h
        injection h with h1 h2
        subst h1
        subst h2
        exact ⟨by simp [hb, hc, hz], rfl⟩
    next hc =>
      simp at h

/-! ## C5 -/

/-- C5: the Media store is keyed by catalogId.  When a Media row for the
body's mediaId already exists, Create leaves the Media store unchanged and
any successfully created Request references that row; when none exists and
the metadata lookup answers, exactly one Media row for it is appended (so
only the first call for a catalogId creates the row, later calls reuse
it). -/
theorem c5_media_not_duplicated (gm gt : Nat → Option TmdbResult) (user : User)
    (b : CreateInput) (db : DB) :
    (∀ m : MediaRow, lookupMedia db b.mediaId = some m →
      (createRequest gm gt user b db).1.media = db.media ∧
      ∀ (hs : Nat) (req : RequestRow),
        (createRequest gm gt user b db).2 = .ok hs req → req.mediaId = m.id) ∧
    (lookupMedia db b.mediaId = none →
      ∀ t : TmdbResult,
        (if b.mediaType == "movie" then gm b.mediaId else gt b.mediaId) = some t →
        (createRequest gm gt user b db).1.media =
          db.media ++
            [{ id := db.nextMediaId, tmdbId := t.id, tvdbId := t.tvdbId,
               status := .pending, mediaType := b.mediaType }]) := by
  constructor
  · intro m hm
    cases ht : (if b.mediaType == "movie" then gm b.mediaId else gt b.mediaId) with
    | none =>
      constructor
      · unfold createRequest
        rw [ht]
      · intro hs req hok
        unfold createRequest at hok
        rw [ht] at hok
        simp at hok
    | some t =>
      rw [createRequest_found gm gt user b db m t ht hm]
      constructor
      · exact createWithMedia_media user b db m _
      · intro hs req hok
        exact (createWithMedia_ok_shape user b db m _ hs req hok).2
  · intro hm t ht
    rw [createRequest_notfound gm gt user b db t ht hm,
      createWithMedia_media]

/-- C5 witness: two movie Creates for catalogId 5 on a fresh store share
the single Media row (id 1); the second call leaves the Media store
unchanged and yields two Request rows referencing it. -/
theorem c5_media_not_duplicated_witness :
    ((createRequest demoLookup demoLookup demoUser
        { mediaType := "movie", mediaId := 5, seasons := [] }
        (createRequest demoLookup demoLookup demoUser
          { mediaType := "movie", mediaId := 5, seasons := [] } demoDB0).1).1.media =
      (createRequest demoLookup demoLookup demoUser
        { mediaType := "movie", mediaId := 5, seasons := [] } demoDB0).1.media) ∧
    (createRequest demoLookup demoLookup demoUser
      { mediaType := "movie", mediaId := 5, seasons := [] } demoDB0).1.media =
      [{ id := 1, tmdbId := 5, tvdbId := none, status := .pending,
         mediaType := "movie" }] ∧
    ((createRequest demoLookup demoLookup demoUser
        { mediaType := "movie", mediaId := 5, seasons := [] }
        (createRequest demoLookup demoLookup demoUser
          { mediaType := "movie", mediaId := 5, seasons := [] } demoDB0).1).1.requests.length = 2) ∧
    (∀ r ∈ (createRequest demoLookup demoLookup demoUser
        { mediaType := "movie", mediaId := 5, seasons := [] }
        (createRequest demoLookup demoLookup demoUser
          { mediaType := "movie", mediaId := 5, seasons := [] } demoDB0).1).1.requests,
      r.mediaId = 1) := by
  refine ⟨?_, by decide, by decide, by decide⟩
  exact ((c5_media_not_duplicated demoLookup demoLookup demoUser
      { mediaType := "movie", mediaId := 5, seasons := [] }
      (createRequest demoLookup demoLookup demoUser
        { mediaType := "movie", mediaId := 5, seasons := [] } demoDB0).1).1
    { id := 1, tmdbId := 5, tvdbId := none, status := .pending,
      mediaType := "movie" }
    (by decide)).1

/-! ## C7 -/

/-- C7: for every movie Create whose metadata lookup answers, exactly one
Request row is appended, attached to the resolved Media row (the looked-up
row, or the freshly saved one), with status approved exactly when the
caller holds the auto-approve capability and pending otherwise, and with
no seasons. -/
theorem c7_movie_create (gm gt : Nat → Option TmdbResult) (user : User)
    (b : CreateInput) (db : DB) (t : TmdbResult)
    (hmovie : b.mediaType = "movie")
    (ht : gm b.mediaId = some t) :
    ∃ media : MediaRow, ∃ request : RequestRow,
      (lookupMedia db b.mediaId = some media ∨
        media = { id := db.nextMediaId, tmdbId := t.id, tvdbId := t.tvdbId,
                  status := .pending, mediaType := b.mediaType }) ∧
      (createRequest gm gt user b db).2 = .ok 201 request ∧
      (createRequest gm gt user b db).1.requests = db.requests ++ [request] ∧
      request.type = .movie ∧
      request.mediaId = media.id ∧
      request.requestedById = user.id ∧
      request.status =
        some (if user.hasPermission .autoApprove then .approved else .pending) ∧
      request.seasons = [] := by
  have ht' : (if b.mediaType == "movie" then gm b.mediaId else gt b.mediaId) = some t := by
    simp [hmovie, ht]
  cases hm : lookupMedia db b.mediaId with
  | some media =>
    rw [createRequest_found gm gt user b db media t ht' hm,
      createWithMedia_movie user b db media _ hmovie]
    exact ⟨media, newMovieRequest user db media, Or.inl rfl, rfl, rfl, rfl, rfl,
      rfl, rfl, rfl⟩
  | none =>
    rw [createRequest_notfound gm gt user b db t ht' hm,
      createWithMedia_movie user b _ _ [] hmovie]
    exact ⟨_, _, Or.inr rfl, rfl, rfl, rfl, rfl, rfl, rfl, rfl⟩

/-- C7 witness: the spec's example.  A non-auto-approve user posting
movie 550 on a fresh store gets a 201 whose Request has status pending,
and the Media row carries tmdbId 550. -/
theorem c7_movie_create_witness :
    (∃ media : MediaRow, ∃ request : RequestRow,
      (lookupMedia demoDB0 550 = some media ∨
        media = { id := demoDB0.nextMediaId, tmdbId := TmdbResult.id { id := 550, tvdbId := none },
                  tvdbId := TmdbResult.tvdbId { id := 550, tvdbId := none },
                  status := .pending, mediaType := "movie" }) ∧
      (createRequest demoMovieLookup demoMovieLookup demoUser
        { mediaType := "movie", mediaId := 550, seasons := [] } demoDB0).2 = .ok 201 request ∧
      (createRequest demoMovieLookup demoMovieLookup demoUser
        { mediaType := "movie", mediaId := 550, seasons := [] } demoDB0).1.requests =
        demoDB0.requests ++ [request] ∧
      request.type = .movie ∧
      request.mediaId = media.id ∧
      request.requestedById = demoUser.id ∧
      request.status =
        some (if demoUser.hasPermission .autoApprove then .approved else .pending) ∧
      request.seasons = []) ∧
    (createRequest demoMovieLookup demoMovieLookup demoUser
      { mediaType := "movie", mediaId := 550, seasons := [] } demoDB0).2 =
      .ok 201 { id := 1, type := .movie, mediaId := 1, requestedById := 7,
                status := some .pending, seasons := [] } ∧
    (createRequest demoMovieLookup demoMovieLookup demoUser
      { mediaType := "movie", mediaId := 550, seasons := [] } demoDB0).1.media =
      [{ id := 1, tmdbId := 550, tvdbId := none, status := .pending,
         mediaType := "movie" }] := by
  refine ⟨?_, by decide, by decide⟩
  have h := c7_movie_create demoMovieLookup demoMovieLookup demoUser
    { mediaType := "movie", mediaId := 550, seasons := [] } demoDB0
    { id := 550, tvdbId := none } rfl (by decide)
  exact h

/-! ## C3 -/

/-- C3: for every tv Create on an already-known Media row, the created
Request's seasons are exactly the input list minus every season number
already present in some existing Request for that Media; when that
difference is empty the call fails with the no-seasons validation error
and the state is unchanged. -/
theorem c3_tv_season_difference (gm gt : Nat → Option TmdbResult) (user : User)
    (b : CreateInput) (db : DB) (t : TmdbResult) (media : MediaRow)
    (htv : b.mediaType = "tv")
    (ht : gt b.mediaId = some t)
    (hm : lookupMedia db b.mediaId = some media) :
    (finalSeasonsFor b (existingSeasonNumbers (mediaRequestsOf db media)) ≠ [] →
      ∃ request : RequestRow,
        (createRequest gm gt user b db).2 = .ok 201 request ∧
        (createRequest gm gt user b db).1.requests = db.requests ++ [request] ∧
        request.seasons.map (fun s => s.seasonNumber) =
          finalSeasonsFor b (existingSeasonNumbers (mediaRequestsOf db media))) ∧
    (finalSeasonsFor b (existingSeasonNumbers (mediaRequestsOf db media)) = [] →
      createRequest gm gt user b db = (db, .err 500 "No seasons available to request")) := by
  have ht' : (if b.mediaType == "movie" then gm b.mediaId else gt b.mediaId) = some t := by
    simp [htv, ht]
  rw [createRequest_found gm gt user b db media t ht' hm]
  constructor
  · intro hne
    rw [createWithMedia_tv_ok user b db media _ htv
      (fun hz => hne (List.length_eq_zero.mp hz))]
    refine ⟨newTvRequest user b db media _, rfl, rfl, ?_⟩
    simp [newTvRequest, List.map_map, Function.comp_def]
  · intro hz
    rw [createWithMedia_tv_err user b db media _ htv
      (by rw [hz]; rfl)]

/-- C3 witness: the spec's example.  Requesting seasons 1 and 2 of title 5
and then seasons 2 and 3 yields a second Request containing only
season 3. -/
theorem c3_tv_season_difference_witness :
    ∃ request : RequestRow,
      (createRequest demoLookup demoLookup demoUser
        { mediaType := "tv", mediaId := 5, seasons := [2, 3] }
        (createRequest demoLookup demoLookup demoUser
          { mediaType := "tv", mediaId := 5, seasons := [1, 2] } demoDB0).1).2 =
        .ok 201 request ∧
      request.seasons.map (fun s => s.seasonNumber) = [3] := by
  obtain ⟨request, hok, -, hmap⟩ :=
    (c3_tv_season_difference demoLookup demoLookup demoUser
      { mediaType := "tv", mediaId := 5, seasons := [2, 3] }
      (createRequest demoLookup demoLookup demoUser
        { mediaType := "tv", mediaId := 5, seasons := [1, 2] } demoDB0).1
      { id := 5, tvdbId := none }
      { id := 1, tmdbId := 5, tvdbId := none, status := .pending, mediaType := "tv" }
      rfl (by decide) (by decide)).1 (by decide)
  exact ⟨request, hok, hmap.trans (by decide)⟩

/-! ## C4 -/


/-- Unrolling of the reduce-style accumulation. -/
theorem foldl_append_seasons (f : RequestRow → List Nat) (l : List RequestRow)
    (init : List Nat) :
    l.foldl (fun acc r => acc ++ f r) init = init ++ (l.map f).flatten := by
  induction l generalizing init with
  | nil => simp
  | cons r l ih => simp [ih, List.append_assoc]

/-- The handler's existingSeasons accumulator equals the flattened season
numbers of the loaded requests relation. -/
theorem existingSeasonNumbers_eq (reqs : List RequestRow) :
    existingSeasonNumbers reqs =
      (reqs.map (fun r => r.seasons.map (fun s => s.seasonNumber))).flatten := by
  simpa using foldl_append_seasons
    (fun r => r.seasons.map (fun s => s.seasonNumber)) reqs []

/-- For a loaded Media row, the accumulated existing seasons are exactly
the stored season numbers of that Media. -/
theorem existingSeasonNumbers_mediaRequestsOf (db : DB) (m : MediaRow) :
    existingSeasonNumbers (mediaRequestsOf db m) =
      seasonNumbersFor db.requests m.id := by
  rw [existingSeasonNumbers_eq]
  rfl

/-- Appending one Request adds its season numbers to its own Media only. -/
theorem seasonNumbersFor_append_single (reqs : List RequestRow)
    (req : RequestRow) (mid : Nat) :
    seasonNumbersFor (reqs ++ [req]) mid =
      if req.mediaId = mid then
        seasonNumbersFor reqs mid ++ req.seasons.map (fun s => s.seasonNumber)
      else seasonNumbersFor reqs mid := by
  by_cases h : req.mediaId = mid
  · simp [seasonNumbersFor, List.filter_append, h]
  · simp [seasonNumbersFor, List.filter_append, h]

/-- A Media that no Request references stores no season numbers. -/
theorem seasonNumbersFor_eq_nil (reqs : List RequestRow) (mid : Nat)
    (h : ∀ r ∈ reqs, r.mediaId ≠ mid) : seasonNumbersFor reqs mid = [] := by
  have hf : reqs.filter (fun r => r.mediaId == mid) = [] := by
    rw [List.filter_eq_nil_iff]
    intro r hr
    simpa using h r hr
  simp [seasonNumbersFor, hf]

/-- Appending one Request whose season numbers are duplicate-free and
disjoint from what its Media already stores preserves the invariant for
every Media. -/
theorem seasonInvariant_snoc (reqs : List RequestRow) (req : RequestRow)
    (hinv : ∀ mid, (seasonNumbersFor reqs mid).Nodup)
    (hnodup : (req.seasons.map (fun s => s.seasonNumber)).Nodup)
    (hdisj : ∀ x ∈ req.seasons.map (fun s => s.seasonNumber),
      x ∉ seasonNumbersFor reqs req.mediaId) :
    ∀ mid, (seasonNumbersFor (reqs ++ [req]) mid).Nodup := by
  intro mid
  rw [seasonNumbersFor_append_single]
  by_cases h : req.mediaId = mid
  · rw [if_pos h]
    rw [List.nodup_append]
    refine ⟨hinv mid, hnodup, ?_⟩
    intro x hx hx'
    exact hdisj x hx' (h ▸ hx)
  · rw [if_neg h]
    exact hinv mid

/-- The season numbers of the Request built by the tv branch are exactly
the filtered season difference. -/
theorem newTvRequest_seasonNumbers (user : User) (b : CreateInput) (db1 : DB)
    (media : MediaRow) (es : List Nat) :
    (newTvRequest user b db1 media es).seasons.map (fun s => s.seasonNumber) =
      finalSeasonsFor b es := by
  simp [newTvRequest, List.map_map, Function.comp_def]

/-- Members of the season difference are not among the existing seasons. -/
theorem finalSeasonsFor_not_mem (b : CreateInput) (es : List Nat) (x : Nat)
    (hx : x ∈ finalSeasonsFor b es) : x ∉ es := by
  have := (List.mem_filter.mp hx).2
  simpa using this

/-- C4: counterexample.  A single tv Create whose input season list holds
the duplicate [1, 1] succeeds and stores season number 1 twice for the
same Media: the input list is not deduplicated. -/
theorem c4_counterexample :
    (createRequest demoLookup demoLookup demoUser
      { mediaType := "tv", mediaId := 5, seasons := [1, 1] } demoDB0).2 =
      .ok 201 { id := 1, type := .tv, mediaId := 1, requestedById := 7,
                status := some .pending,
                seasons := [{ seasonNumber := 1, status := .pending },
                            { seasonNumber := 1, status := .pending }] } ∧
    ¬ (seasonNumbersFor (createRequest demoLookup demoLookup demoUser
        { mediaType := "tv", mediaId := 5, seasons := [1, 1] } demoDB0).1.requests
        1).Nodup := by
  exact ⟨by decide, by decide⟩

/-- C4 (amended): every successful tv Create whose input season list is
itself duplicate-free preserves the invariant that no season number is
stored twice for the same Media (the filter removes every season already
stored, but does not deduplicate the input list). -/
theorem c4_season_invariant_preserved (gm gt : Nat → Option TmdbResult)
    (user : User) (b : CreateInput) (db : DB) (hs : Nat) (request : RequestRow)
    (htv : b.mediaType = "tv")
    (hnodup : b.seasons.Nodup)
    (hWF : ∀ r ∈ db.requests, r.mediaId < db.nextMediaId)
    (hinv : SeasonInvariant db)
    (hok : (createRequest gm gt user b db).2 = .ok hs request) :
    SeasonInvariant (createRequest gm gt user b db).1 := by
  cases ht : (if b.mediaType == "movie" then gm b.mediaId else gt b.mediaId) with
  | none =>
    unfold createRequest at hok
    rw [ht] at hok
    simp at hok
  | some t =>
    cases hm : lookupMedia db b.mediaId with
    | some media =>
      rw [createRequest_found gm gt user b db media t ht hm] at hok ⊢
      by_cases hz : finalSeasonsFor b
          (existingSeasonNumbers (mediaRequestsOf db media)) = []
      · rw [createWithMedia_tv_err user b db media _ htv (by rw [hz]; rfl)] at hok
        simp at hok
      · rw [createWithMedia_tv_ok user b db media _ htv
          (fun h0 => hz (List.length_eq_zero.mp h0))]
        intro mid
        apply seasonInvariant_snoc db.requests _ hinv
        · rw [newTvRequest_seasonNumbers]
          exact hnodup.filter _
        · intro x hx
          rw [newTvRequest_seasonNumbers] at hx
          have := finalSeasonsFor_not_mem _ _ _ hx
          rw [existingSeasonNumbers_mediaRequestsOf] at this
          exact fun hmem => this hmem
    | none =>
      rw [createRequest_notfound gm gt user b db t ht hm] at hok ⊢
      by_cases hz : finalSeasonsFor b [] = []
      · rw [createWithMedia_tv_err user b _ _ [] htv (by rw [hz]; rfl)] at hok
        simp at hok
      · rw [createWithMedia_tv_ok user b _ _ [] htv
          (fun h0 => hz (List.length_eq_zero.mp h0))]
        intro mid
        apply seasonInvariant_snoc db.requests _ hinv
        · rw [newTvRequest_seasonNumbers]
          exact hnodup.filter _
        · intro x hx
          rw [seasonNumbersFor_eq_nil]
          · exact List.not_mem_nil x
          · intro r hr
            exact Nat.ne_of_lt (hWF r hr)

/-- C4 witness: the amended statement at a concrete duplicate-free tv
Create on a fresh store. -/
theorem c4_season_invariant_preserved_witness :
    SeasonInvariant (createRequest demoLookup demoLookup demoUser
      { mediaType := "tv", mediaId := 5, seasons := [1, 2] } demoDB0).1 :=
  c4_season_invariant_preserved demoLookup demoLookup demoUser
    { mediaType := "tv", mediaId := 5, seasons := [1, 2] } demoDB0 201
    { id := 1, type := .tv, mediaId := 1, requestedById := 7,
      status := some .pending,
      seasons := [{ seasonNumber := 1, status := .pending },
                  { seasonNumber := 2, status := .pending }] }
    rfl (by decide) (by decide) (fun mid => by simp [seasonNumbersFor, demoDB0]) (by decide)

/-! ## C6 -/

/-- C6: every listed Request comes from the store and, for a caller
without manage-requests, belongs to that caller; at most 20 rows are
returned, ordered descending by id; a manager sees the whole store
whenever it holds at most 20 rows. -/
theorem c6_list_requests (user : User) (db : DB) :
    (∀ r ∈ listRequests user db, r ∈ db.requests) ∧
    (listRequests user db).length ≤ 20 ∧
    (listRequests user db).Pairwise (fun a b => b.id ≤ a.id) ∧
    (user.hasPermission .manageRequests = false →
      ∀ r ∈ listRequests user db, r.requestedById = user.id) ∧
    (user.hasPermission .manageRequests = true → db.requests.length ≤ 20 →
      ∀ r ∈ db.requests, r ∈ listRequests user db) := by
  unfold listRequests sortDescById
  by_cases hmg : user.hasPermission .manageRequests = true
  · rw [if_pos hmg]
    refine ⟨?_, ?_, ?_, ?_, ?_⟩
    · intro r hr
      exact (List.perm_insertionSort reqGE db.requests).subset
        (List.take_subset _ _ hr)
    · rw [List.length_take]
      exact min_le_left _ _
    · exact (List.Pairwise.sublist (List.take_sublist _ _)
        (List.sorted_insertionSort reqGE db.requests)).imp (fun h => h)
    · intro hf
      rw [hmg] at hf
      cases hf
    · intro _ hlen r hr
      rw [List.take_of_length_le]
      · exact ((List.perm_insertionSort reqGE db.requests).mem_iff).mpr hr
      · rw [(List.perm_insertionSort reqGE db.requests).length_eq]
        exact hlen
  · rw [if_neg hmg]
    refine ⟨?_, ?_, ?_, ?_, ?_⟩
    · intro r hr
      have h1 := (List.perm_insertionSort reqGE
        (db.requests.filter (fun q => q.requestedById == user.id))).subset
        (List.take_subset _ _ hr)
      exact (List.mem_filter.mp h1).1
    · rw [List.length_take]
      exact min_le_left _ _
    · exact (List.Pairwise.sublist (List.take_sublist _ _)
        (List.sorted_insertionSort reqGE _)).imp (fun h => h)
    · intro _ r hr
      have h1 := (List.perm_insertionSort reqGE
        (db.requests.filter (fun q => q.requestedById == user.id))).subset
        (List.take_subset _ _ hr)
      simpa using (List.mem_filter.mp h1).2
    · intro hm'
      exact absurd hm' hmg

/-- C6 witness: the listing property at a concrete two-request store. -/
theorem c6_list_requests_witness :
    ∀ r ∈ listRequests demoUser (createRequest demoLookup demoLookup demoUser
      { mediaType := "movie", mediaId := 5, seasons := [] }
      (createRequest demoLookup demoLookup demoUser
        { mediaType := "movie", mediaId := 5, seasons := [] } demoDB0).1).1,
      r ∈ (createRequest demoLookup demoLookup demoUser
        { mediaType := "movie", mediaId := 5, seasons := [] }
        (createRequest demoLookup demoLookup demoUser
          { mediaType := "movie", mediaId := 5, seasons := [] } demoDB0).1).1.requests :=
  (c6_list_requests demoUser (createRequest demoLookup demoLookup demoUser
    { mediaType := "movie", mediaId := 5, seasons := [] }
    (createRequest demoLookup demoLookup demoUser
      { mediaType := "movie", mediaId := 5, seasons := [] } demoDB0).1).1).1

/-! ## C2 -/

/-- C2: for a Delete on an existing request id (with a well-formed stored
status), the call succeeds — removing the Request row and returning the
pre-deletion record — exactly when the caller holds manage-requests or is
the original requester of a still-pending Request; in every other case it
answers 401 and the store is unchanged. -/
theorem c2_delete_authorization (user : User) (db : DB) (rid : Nat)
    (r : RequestRow) (s : MediaRequestStatus)
    (hfind : db.requests.find? (fun q => q.id == rid) = some r)
    (hstatus : r.status = some s) :
    (user.hasPermission .manageRequests = true ∨
        (r.requestedById = user.id ∧ s = .pending) →
      deleteRequest user rid db =
        ({ db with requests := db.requests.filter (fun q => !(q.id == r.id)) },
          .ok 200 r)) ∧
    (user.hasPermission .manageRequests = false →
      r.requestedById ≠ user.id ∨ s ≠ .pending →
      deleteRequest user rid db =
        (db, .err 401 "You do not have permission to remove this request")) := by
  unfold deleteRequest
  rw [hfind]
  constructor
  · intro hcase
    have hguard : (!(user.hasPermission .manageRequests) &&
        (!(r.requestedById == user.id) || statusGtZero r.status)) = false := by
      rcases hcase with hmg | ⟨hown, hpend⟩
      · simp [hmg]
      · subst hpend
        simp [hown, hstatus, statusGtZero, MediaRequestStatus.val]
    simp [hguard]
  · intro hmg hdeny
    have hguard : (!(user.hasPermission .manageRequests) &&
        (!(r.requestedById == user.id) || statusGtZero r.status)) = true := by
      rcases hdeny with hown | hpend
      · simp [hmg, hown]
      · have : statusGtZero r.status = true := by
          rw [hstatus]
          cases s with
          | pending => exact absurd rfl hpend
          | approved => rfl
          | declined => rfl
        simp [hmg, this]
    simp [hguard]

/-- C2 witness: the owner of a pending movie request (without
manage-requests) deletes it successfully and receives the pre-deletion
record. -/
theorem c2_delete_authorization_witness :
    (deleteRequest demoUser 1 (createRequest demoLookup demoLookup demoUser
        { mediaType := "movie", mediaId := 5, seasons := [] } demoDB0).1).2 =
      .ok 200 { id := 1, type := .movie, mediaId := 1, requestedById := 7,
                status := some .pending, seasons := [] } ∧
    (deleteRequest demoUser 1 (createRequest demoLookup demoLookup demoUser
        { mediaType := "movie", mediaId := 5, seasons := [] } demoDB0).1).1.requests = [] := by
  have h := (c2_delete_authorization demoUser
    (createRequest demoLookup demoLookup demoUser
      { mediaType := "movie", mediaId := 5, seasons := [] } demoDB0).1 1
    { id := 1, type := .movie, mediaId := 1, requestedById := 7,
      status := some .pending, seasons := [] } .pending
    (by decide) rfl).1 (Or.inr ⟨rfl, rfl⟩)
  rw [h]
  exact ⟨rfl, by decide⟩

/-! ## C8, C9, C10 -/

/-- After saving the updated row, loading the same id yields it. -/
theorem find?_after_update (l : List RequestRow) (rid : Nat) (r u : RequestRow)
    (hfind : l.find? (fun q => q.id == rid) = some r)
    (hu : (u.id == rid) = true) :
    (l.map (fun q => if q.id == rid then u else q)).find?
      (fun q => q.id == rid) = some u := by
  induction l with
  | nil => simp at hfind
  | cons a l ih =>
    by_cases ha : (a.id == rid) = true
    · rw [List.map_cons, if_pos ha,
        @List.find?_cons_of_pos _ (fun q => q.id == rid) u _ hu]
    · rw [@List.find?_cons_of_neg _ (fun q => q.id == rid) a _ ha] at hfind
      rw [List.map_cons, if_neg ha,
        @List.find?_cons_of_neg _ (fun q => q.id == rid) a _ ha]
      exact ih hfind

/-- Saving the same updated row twice is the same as saving it once. -/
theorem map_update_idempotent (l : List RequestRow) (rid : Nat) (u : RequestRow)
    (hu : (u.id == rid) = true) :
    ((l.map (fun q => if q.id == rid then u else q)).map
      (fun q => if q.id == rid then u else q)) =
      l.map (fun q => if q.id == rid then u else q) := by
  rw [List.map_map]
  apply List.map_congr_left
  intro a _
  rw [Function.comp_apply]
  by_cases h : (a.id == rid) = true
  · rw [if_pos h, if_pos hu]
  · rw [if_neg h, if_neg h]

/-- C8: approving an existing Request overwrites its status with approved
and answers 200 with the updated row; running the same approve call again
returns the very same state and response — the operation is idempotent. -/
theorem c8_approve_idempotent (user : User) (db : DB) (rid : Nat)
    (r : RequestRow)
    (hfind : db.requests.find? (fun q => q.id == rid) = some r) :
    ∃ db1 : DB,
      updateRequestStatus user rid "approve" db =
        (db1, .ok 200 { r with status := some .approved }) ∧
      db1.requests.find? (fun q => q.id == rid) =
        some { r with status := some .approved } ∧
      updateRequestStatus user rid "approve" db1 =
        (db1, .ok 200 { r with status := some .approved }) := by
  have hr : (r.id == rid) = true := by
    simpa using List.find?_some hfind
  have hfind1 : (db.requests.map (fun q => if q.id == rid then
      { r with status := some MediaRequestStatus.approved } else q)).find?
      (fun q => q.id == rid) = some { r with status := some .approved } :=
    find?_after_update db.requests rid r _ hfind hr
  refine ⟨{ db with requests := db.requests.map (fun q => if q.id == rid then
    { r with status := some .approved } else q) }, ?_, hfind1, ?_⟩
  · unfold updateRequestStatus
    rw [hfind]
    rfl
  · unfold updateRequestStatus
    rw [hfind1]
    have hmap := map_update_idempotent db.requests rid
      { r with status := some MediaRequestStatus.approved } hr
    exact congrArg (fun l => ({ db with requests := l }, HandlerResult.ok 200
      { r with status := some MediaRequestStatus.approved })) hmap

/-- C8 witness: approving the pending movie request twice on the concrete
store. -/
theorem c8_approve_idempotent_witness :
    ∃ db1 : DB,
      updateRequestStatus demoManager 1 "approve"
        (createRequest demoLookup demoLookup demoUser
          { mediaType := "movie", mediaId := 5, seasons := [] } demoDB0).1 =
        (db1, .ok 200 { id := 1, type := .movie, mediaId := 1, requestedById := 7,
                        status := some .approved, seasons := [] }) ∧
      db1.requests.find? (fun q => q.id == 1) =
        some { id := 1, type := .movie, mediaId := 1, requestedById := 7,
               status := some .approved, seasons := [] } ∧
      updateRequestStatus demoManager 1 "approve" db1 =
        (db1, .ok 200 { id := 1, type := .movie, mediaId := 1, requestedById := 7,
                        status := some .approved, seasons := [] }) :=
  c8_approve_idempotent demoManager
    (createRequest demoLookup demoLookup demoUser
      { mediaType := "movie", mediaId := 5, seasons := [] } demoDB0).1 1
    { id := 1, type := .movie, mediaId := 1, requestedById := 7,
      status := some .pending, seasons := [] }
    (by decide)

/-- C9: a status change touches nothing but the status field of the loaded
Request: every other field — including the per-season sub-statuses — is
returned unchanged, the Media store and counters are untouched, and every
other Request row is still in the store. -/
theorem c9_status_change_frame (user : User) (db : DB) (rid : Nat)
    (p : String) (r : RequestRow)
    (hfind : db.requests.find? (fun q => q.id == rid) = some r) :
    ∃ u : RequestRow,
      (updateRequestStatus user rid p db).2 = .ok 200 u ∧
      u.id = r.id ∧
      u.type = r.type ∧
      u.mediaId = r.mediaId ∧
      u.requestedById = r.requestedById ∧
      u.seasons = r.seasons ∧
      (updateRequestStatus user rid p db).1.media = db.media ∧
      (updateRequestStatus user rid p db).1.nextMediaId = db.nextMediaId ∧
      (updateRequestStatus user rid p db).1.nextRequestId = db.nextRequestId ∧
      ∀ q ∈ (updateRequestStatus user rid p db).1.requests,
        q.id ≠ rid → q ∈ db.requests := by
  have hr : (r.id == rid) = true := by
    simpa using List.find?_some hfind
  unfold updateRequestStatus
  rw [hfind]
  refine ⟨{ r with status := statusFromParam p }, rfl, rfl, rfl, rfl, rfl, rfl,
    rfl, rfl, rfl, ?_⟩
  intro q hq hne
  obtain ⟨a, ha, hqa⟩ := List.mem_map.mp hq
  by_cases h : (a.id == rid) = true
  · rw [if_pos h] at hqa
    exfalso
    apply hne
    rw [← hqa]
    simpa using hr
  · rw [if_neg h] at hqa
    rw [← hqa]
    exact ha

/-- C9 witness: declining the pending movie request changes only its
status. -/
theorem c9_status_change_frame_witness :
    ∃ u : RequestRow,
      (updateRequestStatus demoManager 1 "decline"
        (createRequest demoLookup demoLookup demoUser
          { mediaType := "movie", mediaId := 5, seasons := [] } demoDB0).1).2 =
        .ok 200 u ∧
      u.id = 1 ∧
      u.type = MediaType.movie ∧
      u.mediaId = 1 ∧
      u.requestedById = 7 ∧
      u.seasons = [] := by
  obtain ⟨u, hok, h1, h2, h3, h4, h5, -⟩ :=
    c9_status_change_frame demoManager
      (createRequest demoLookup demoLookup demoUser
        { mediaType := "movie", mediaId := 5, seasons := [] } demoDB0).1 1
      "decline"
      { id := 1, type := .movie, mediaId := 1, requestedById := 7,
        status := some .pending, seasons := [] }
      (by decide)
  exact ⟨u, hok, h1, h2, h3, h4, h5⟩

/-- C10: a status path segment outside pending, approve and decline is not
rejected: the switch has no default case, so the Request's status is
overwritten with the undefined value (none), the row is saved that way,
and the response is still 200 with the updated Request. -/
theorem c10_unrecognized_status_segment (user : User) (db : DB) (rid : Nat)
    (p : String) (r : RequestRow)
    (hfind : db.requests.find? (fun q => q.id == rid) = some r)
    (h1 : p ≠ "pending") (h2 : p ≠ "approve") (h3 : p ≠ "decline") :
    updateRequestStatus user rid p db =
      ({ db with
          requests := db.requests.map
            (fun q => if q.id == rid then { r with status := none } else q) },
        .ok 200 { r with status := none }) := by
  have hp : statusFromParam p = none := by
    simp [statusFromParam, h1, h2, h3]
  unfold updateRequestStatus
  rw [hfind, hp]

/-- C10 witness: the segment "frobnicate" on the concrete store persists
an undefined status and still answers 200. -/
theorem c10_unrecognized_status_segment_witness :
    updateRequestStatus demoManager 1 "frobnicate" demoMovieDB =
      ({ demoMovieDB with
          requests := demoMovieDB.requests.map
            (fun q => if q.id == 1 then
              { id := 1, type := MediaType.movie, mediaId := 1, requestedById := 7,
                status := none, seasons := [] } else q) },
        .ok 200 { id := 1, type := MediaType.movie, mediaId := 1, requestedById := 7,
                  status := none, seasons := [] }) :=
  c10_unrecognized_status_segment demoManager demoMovieDB 1 "frobnicate"
    { id := 1, type := .movie, mediaId := 1, requestedById := 7,
      status := some .pending, seasons := [] }
    (by decide) (by decide) (by decide) (by decide)
